import Mathlib

set_option maxRecDepth 100000

/-!
Verification development for the ts-php-lib repository.

The repository has two independent components:

* `UFTimezone` (src/src/tools/UFTimezone.ts) — a timezone offset resolver
  with an in-memory cache, an external interpreter call and a static
  fallback table.
* `UFPhp` (config converter) — a best-effort converter from a PHP
  configuration file (a single `return [...]` array literal) to a JSON
  structure, implemented as a sequence of regex substitutions followed by
  a JSON parse.

The embedding below translates the TypeScript source into executable Lean
definitions.  Stateful code (the offset cache) becomes explicit state
passing; the subprocess call becomes an explicit `ExecResult` argument;
JavaScript `NaN` (producible by `parseInt`) is modelled as `none` in
`Option Int`; each regex substitution of the converter is translated into
a character-list scanner implementing that regex's matching semantics.
-/

namespace UF

/-- Cache life is 1 hour, in milliseconds (`CACHE_LIFE` in the source). -/
def CACHE_LIFE : Int := 60 * 60 * 1000

/-- Offset with the time it was stored (class `Offset` in the source).
The `offset` field models a JavaScript number that is either an integer or
`NaN`; `none` stands for `NaN` (the constructor stores `0`, i.e. `some 0`). -/
structure Offset where
  offset : Option Int
  time : Int
deriving DecidableEq

/-- The `Offset` constructor: `this.offset = 0; this.time = -CACHE_LIFE;`. -/
def Offset.new : Offset :=
  { offset := some 0, time := -CACHE_LIFE }

/-- The cache `m_cache : Map<string, Offset>`, modelled as an association
list in insertion order. -/
def Cache : Type := List (String × Offset)

/-- `Map.get` (`undefined`, i.e. `none`, when absent). -/
def mapGet : List (String × Offset) → String → Option Offset
  | [], _ => none
  | (k, v) :: rest, key => if k = key then some v else mapGet rest key

/-- `Map.has`. -/
def mapHas (c : List (String × Offset)) (key : String) : Bool :=
  (mapGet c key).isSome

/-- `Map.set`: replaces the value of an existing key in place, otherwise
appends the new binding (JavaScript `Map` preserves insertion order). -/
def mapSet : List (String × Offset) → String → Offset → List (String × Offset)
  | [], key, v => [(key, v)]
  | (k, w) :: rest, key, v =>
    if k = key then (key, v) :: rest else (k, w) :: mapSet rest key v

/-- The keys of the cache, in insertion order. -/
def mapKeys (c : List (String × Offset)) : List String :=
  c.map (fun p => p.1)

/-- The cache right after `UFTimezone`'s construction:
`private m_cache: Map<string, Offset> = new Map();` — the empty map. -/
def initialCache : List (String × Offset) := []

/-- Whitespace as matched by JavaScript (`parseInt` trimming and the regex
class `\s`): space, tab, line feed, carriage return, vertical tab, form
feed.  (JavaScript additionally includes some Unicode space code points,
which cannot occur in the inputs of this development.) -/
def isJsWs (c : Char) : Bool :=
  c = ' ' || c = '\t' || c = '\n' || c = '\r' || c = '\x0b' || c = '\x0c'

/-- Numeric value of a list of decimal digit characters. -/
def digitsToNat (l : List Char) : Nat :=
  l.foldl (fun a c => 10 * a + (c.toNat - 48)) 0

/-- Value of the longest leading run of decimal digits, `none` if there is
no leading digit. -/
def leadDigitsVal (l : List Char) : Option Nat :=
  let ds := l.takeWhile Char.isDigit
  if ds.isEmpty then none else some (digitsToNat ds)

/-- JavaScript `parseInt` (radix 10): skip leading whitespace, optional
sign, then the longest run of decimal digits; `NaN` (modelled as `none`)
when no digit follows.  (The `0x` hexadecimal prefix detection of
`parseInt` is irrelevant here: the interpreter output parsed by the source
is a decimal integer.) -/
def jsParseInt (s : String) : Option Int :=
  match s.data.dropWhile isJsWs with
  | '-' :: rest => (leadDigitsVal rest).map (fun n => -(n : Int))
  | '+' :: rest => (leadDigitsVal rest).map (fun n => (n : Int))
  | l => (leadDigitsVal l).map (fun n => (n : Int))

/-- Outcome of `execFileAsync(this.m_php, ['-n', '-r', args])`:
either the promise rejects (spawn error or non-zero exit status), or the
process completes with exit status 0 yielding `stdout` and `stderr`. -/
inductive ExecResult where
  | failure
  | success (stdout stderr : String)
deriving DecidableEq

/-- The static summer offset table `s_summerTimezones`, copied entry for
entry from the source (lines 676–1113 of UFTimezone.ts). -/
def s_summerTimezones : List (String × Int) := [
    ("Africa/Abidjan", 0),
    ("Africa/Accra", 0),
    ("Africa/Addis_Ababa", 10800),
    ("Africa/Algiers", 3600),
    ("Africa/Asmara", 10800),
    ("Africa/Bamako", 0),
    ("Africa/Bangui", 3600),
    ("Africa/Banjul", 0),
    ("Africa/Bissau", 0),
    ("Africa/Blantyre", 7200),
    ("Africa/Brazzaville", 3600),
    ("Africa/Bujumbura", 7200),
    ("Africa/Cairo", 7200),
    ("Africa/Casablanca", 3600),
    ("Africa/Ceuta", 7200),
    ("Africa/Conakry", 0),
    ("Africa/Dakar", 0),
    ("Africa/Dar_es_Salaam", 10800),
    ("Africa/Djibouti", 10800),
    ("Africa/Douala", 3600),
    ("Africa/El_Aaiun", 3600),
    ("Africa/Freetown", 0),
    ("Africa/Gaborone", 7200),
    ("Africa/Harare", 7200),
    ("Africa/Johannesburg", 7200),
    ("Africa/Juba", 10800),
    ("Africa/Kampala", 10800),
    ("Africa/Khartoum", 7200),
    ("Africa/Kigali", 7200),
    ("Africa/Kinshasa", 3600),
    ("Africa/Lagos", 3600),
    ("Africa/Libreville", 3600),
    ("Africa/Lome", 0),
    ("Africa/Luanda", 3600),
    ("Africa/Lubumbashi", 7200),
    ("Africa/Lusaka", 7200),
    ("Africa/Malabo", 3600),
    ("Africa/Maputo", 7200),
    ("Africa/Maseru", 7200),
    ("Africa/Mbabane", 7200),
    ("Africa/Mogadishu", 10800),
    ("Africa/Monrovia", 0),
    ("Africa/Nairobi", 10800),
    ("Africa/Ndjamena", 3600),
    ("Africa/Niamey", 3600),
    ("Africa/Nouakchott", 0),
    ("Africa/Ouagadougou", 0),
    ("Africa/Porto-Novo", 3600),
    ("Africa/Sao_Tome", 0),
    ("Africa/Tripoli", 7200),
    ("Africa/Tunis", 3600),
    ("Africa/Windhoek", 7200),
    ("America/Adak", -32400),
    ("America/Anchorage", -28800),
    ("America/Anguilla", -14400),
    ("America/Antigua", -14400),
    ("America/Araguaina", -10800),
    ("America/Argentina/Buenos_Aires", -10800),
    ("America/Argentina/Catamarca", -10800),
    ("America/Argentina/Cordoba", -10800),
    ("America/Argentina/Jujuy", -10800),
    ("America/Argentina/La_Rioja", -10800),
    ("America/Argentina/Mendoza", -10800),
    ("America/Argentina/Rio_Gallegos", -10800),
    ("America/Argentina/Salta", -10800),
    ("America/Argentina/San_Juan", -10800),
    ("America/Argentina/San_Luis", -10800),
    ("America/Argentina/Tucuman", -10800),
    ("America/Argentina/Ushuaia", -10800),
    ("America/Aruba", -14400),
    ("America/Asuncion", -14400),
    ("America/Atikokan", -18000),
    ("America/Bahia", -10800),
    ("America/Bahia_Banderas", -21600),
    ("America/Barbados", -14400),
    ("America/Belem", -10800),
    ("America/Belize", -21600),
    ("America/Blanc-Sablon", -14400),
    ("America/Boa_Vista", -14400),
    ("America/Bogota", -18000),
    ("America/Boise", -21600),
    ("America/Cambridge_Bay", -21600),
    ("America/Campo_Grande", -14400),
    ("America/Cancun", -18000),
    ("America/Caracas", -14400),
    ("America/Cayenne", -10800),
    ("America/Cayman", -18000),
    ("America/Chicago", -18000),
    ("America/Chihuahua", -25200),
    ("America/Costa_Rica", -21600),
    ("America/Creston", -25200),
    ("America/Cuiaba", -14400),
    ("America/Curacao", -14400),
    ("America/Danmarkshavn", 0),
    ("America/Dawson", -25200),
    ("America/Dawson_Creek", -25200),
    ("America/Denver", -21600),
    ("America/Detroit", -14400),
    ("America/Dominica", -14400),
    ("America/Edmonton", -21600),
    ("America/Eirunepe", -18000),
    ("America/El_Salvador", -21600),
    ("America/Fort_Nelson", -25200),
    ("America/Fortaleza", -10800),
    ("America/Glace_Bay", -10800),
    ("America/Godthab", -7200),
    ("America/Goose_Bay", -10800),
    ("America/Grand_Turk", -14400),
    ("America/Grenada", -14400),
    ("America/Guadeloupe", -14400),
    ("America/Guatemala", -21600),
    ("America/Guayaquil", -18000),
    ("America/Guyana", -14400),
    ("America/Halifax", -10800),
    ("America/Havana", -14400),
    ("America/Hermosillo", -25200),
    ("America/Indiana/Indianapolis", -14400),
    ("America/Indiana/Knox", -18000),
    ("America/Indiana/Marengo", -14400),
    ("America/Indiana/Petersburg", -14400),
    ("America/Indiana/Tell_City", -18000),
    ("America/Indiana/Vevay", -14400),
    ("America/Indiana/Vincennes", -14400),
    ("America/Indiana/Winamac", -14400),
    ("America/Inuvik", -21600),
    ("America/Iqaluit", -14400),
    ("America/Jamaica", -18000),
    ("America/Juneau", -28800),
    ("America/Kentucky/Louisville", -14400),
    ("America/Kentucky/Monticello", -14400),
    ("America/Kralendijk", -14400),
    ("America/La_Paz", -14400),
    ("America/Lima", -18000),
    ("America/Los_Angeles", -25200),
    ("America/Lower_Princes", -14400),
    ("America/Maceio", -10800),
    ("America/Managua", -21600),
    ("America/Manaus", -14400),
    ("America/Marigot", -14400),
    ("America/Martinique", -14400),
    ("America/Matamoros", -18000),
    ("America/Mazatlan", -25200),
    ("America/Menominee", -18000),
    ("America/Merida", -21600),
    ("America/Metlakatla", -28800),
    ("America/Mexico_City", -21600),
    ("America/Miquelon", -7200),
    ("America/Moncton", -10800),
    ("America/Monterrey", -21600),
    ("America/Montevideo", -10800),
    ("America/Montserrat", -14400),
    ("America/Nassau", -14400),
    ("America/New_York", -14400),
    ("America/Nipigon", -14400),
    ("America/Nome", -28800),
    ("America/Noronha", -7200),
    ("America/North_Dakota/Beulah", -18000),
    ("America/North_Dakota/Center", -18000),
    ("America/North_Dakota/New_Salem", -18000),
    ("America/Ojinaga", -21600),
    ("America/Panama", -18000),
    ("America/Pangnirtung", -14400),
    ("America/Paramaribo", -10800),
    ("America/Phoenix", -25200),
    ("America/Port-au-Prince", -14400),
    ("America/Port_of_Spain", -14400),
    ("America/Porto_Velho", -14400),
    ("America/Puerto_Rico", -14400),
    ("America/Punta_Arenas", -10800),
    ("America/Rainy_River", -18000),
    ("America/Rankin_Inlet", -18000),
    ("America/Recife", -10800),
    ("America/Regina", -21600),
    ("America/Resolute", -18000),
    ("America/Rio_Branco", -18000),
    ("America/Santarem", -10800),
    ("America/Santiago", -10800),
    ("America/Santo_Domingo", -14400),
    ("America/Sao_Paulo", -10800),
    ("America/Scoresbysund", 0),
    ("America/Sitka", -28800),
    ("America/St_Barthelemy", -14400),
    ("America/St_Johns", -9000),
    ("America/St_Kitts", -14400),
    ("America/St_Lucia", -14400),
    ("America/St_Thomas", -14400),
    ("America/St_Vincent", -14400),
    ("America/Swift_Current", -21600),
    ("America/Tegucigalpa", -21600),
    ("America/Thule", -10800),
    ("America/Thunder_Bay", -14400),
    ("America/Tijuana", -25200),
    ("America/Toronto", -14400),
    ("America/Tortola", -14400),
    ("America/Vancouver", -25200),
    ("America/Whitehorse", -25200),
    ("America/Winnipeg", -18000),
    ("America/Yakutat", -28800),
    ("America/Yellowknife", -21600),
    ("Antarctica/Casey", 28800),
    ("Antarctica/Davis", 25200),
    ("Antarctica/DumontDUrville", 36000),
    ("Antarctica/Macquarie", 39600),
    ("Antarctica/Mawson", 18000),
    ("Antarctica/McMurdo", 46800),
    ("Antarctica/Palmer", -10800),
    ("Antarctica/Rothera", -10800),
    ("Antarctica/Syowa", 10800),
    ("Antarctica/Troll", 7200),
    ("Antarctica/Vostok", 21600),
    ("Arctic/Longyearbyen", 7200),
    ("Asia/Aden", 10800),
    ("Asia/Almaty", 21600),
    ("Asia/Amman", 10800),
    ("Asia/Anadyr", 43200),
    ("Asia/Aqtau", 18000),
    ("Asia/Aqtobe", 18000),
    ("Asia/Ashgabat", 18000),
    ("Asia/Atyrau", 18000),
    ("Asia/Baghdad", 10800),
    ("Asia/Bahrain", 10800),
    ("Asia/Baku", 14400),
    ("Asia/Bangkok", 25200),
    ("Asia/Barnaul", 25200),
    ("Asia/Beirut", 10800),
    ("Asia/Bishkek", 21600),
    ("Asia/Brunei", 28800),
    ("Asia/Chita", 32400),
    ("Asia/Choibalsan", 28800),
    ("Asia/Colombo", 19800),
    ("Asia/Damascus", 10800),
    ("Asia/Dhaka", 21600),
    ("Asia/Dili", 32400),
    ("Asia/Dubai", 14400),
    ("Asia/Dushanbe", 18000),
    ("Asia/Famagusta", 10800),
    ("Asia/Gaza", 10800),
    ("Asia/Hebron", 10800),
    ("Asia/Ho_Chi_Minh", 25200),
    ("Asia/Hong_Kong", 28800),
    ("Asia/Hovd", 25200),
    ("Asia/Irkutsk", 28800),
    ("Asia/Jakarta", 25200),
    ("Asia/Jayapura", 32400),
    ("Asia/Jerusalem", 10800),
    ("Asia/Kabul", 16200),
    ("Asia/Kamchatka", 43200),
    ("Asia/Karachi", 18000),
    ("Asia/Kathmandu", 20700),
    ("Asia/Khandyga", 32400),
    ("Asia/Kolkata", 19800),
    ("Asia/Krasnoyarsk", 25200),
    ("Asia/Kuala_Lumpur", 28800),
    ("Asia/Kuching", 28800),
    ("Asia/Kuwait", 10800),
    ("Asia/Macau", 28800),
    ("Asia/Magadan", 39600),
    ("Asia/Makassar", 28800),
    ("Asia/Manila", 28800),
    ("Asia/Muscat", 14400),
    ("Asia/Nicosia", 10800),
    ("Asia/Novokuznetsk", 25200),
    ("Asia/Novosibirsk", 25200),
    ("Asia/Omsk", 21600),
    ("Asia/Oral", 18000),
    ("Asia/Phnom_Penh", 25200),
    ("Asia/Pontianak", 25200),
    ("Asia/Pyongyang", 32400),
    ("Asia/Qatar", 10800),
    ("Asia/Qostanay", 21600),
    ("Asia/Qyzylorda", 18000),
    ("Asia/Riyadh", 10800),
    ("Asia/Sakhalin", 39600),
    ("Asia/Samarkand", 18000),
    ("Asia/Seoul", 32400),
    ("Asia/Shanghai", 28800),
    ("Asia/Singapore", 28800),
    ("Asia/Srednekolymsk", 39600),
    ("Asia/Taipei", 28800),
    ("Asia/Tashkent", 18000),
    ("Asia/Tbilisi", 14400),
    ("Asia/Tehran", 16200),
    ("Asia/Thimphu", 21600),
    ("Asia/Tokyo", 32400),
    ("Asia/Tomsk", 25200),
    ("Asia/Ulaanbaatar", 28800),
    ("Asia/Urumqi", 21600),
    ("Asia/Ust-Nera", 36000),
    ("Asia/Vientiane", 25200),
    ("Asia/Vladivostok", 36000),
    ("Asia/Yakutsk", 32400),
    ("Asia/Yangon", 23400),
    ("Asia/Yekaterinburg", 18000),
    ("Asia/Yerevan", 14400),
    ("Atlantic/Azores", 0),
    ("Atlantic/Bermuda", -10800),
    ("Atlantic/Canary", 3600),
    ("Atlantic/Cape_Verde", -3600),
    ("Atlantic/Faroe", 3600),
    ("Atlantic/Madeira", 3600),
    ("Atlantic/Reykjavik", 0),
    ("Atlantic/South_Georgia", -7200),
    ("Atlantic/St_Helena", 0),
    ("Atlantic/Stanley", -10800),
    ("Australia/Adelaide", 37800),
    ("Australia/Brisbane", 36000),
    ("Australia/Broken_Hill", 37800),
    ("Australia/Currie", 39600),
    ("Australia/Darwin", 34200),
    ("Australia/Eucla", 31500),
    ("Australia/Hobart", 39600),
    ("Australia/Lindeman", 36000),
    ("Australia/Lord_Howe", 39600),
    ("Australia/Melbourne", 39600),
    ("Australia/Perth", 28800),
    ("Australia/Sydney", 39600),
    ("Europe/Amsterdam", 7200),
    ("Europe/Andorra", 7200),
    ("Europe/Astrakhan", 14400),
    ("Europe/Athens", 10800),
    ("Europe/Belgrade", 7200),
    ("Europe/Berlin", 7200),
    ("Europe/Bratislava", 7200),
    ("Europe/Brussels", 7200),
    ("Europe/Bucharest", 10800),
    ("Europe/Budapest", 7200),
    ("Europe/Busingen", 7200),
    ("Europe/Chisinau", 10800),
    ("Europe/Copenhagen", 7200),
    ("Europe/Dublin", 3600),
    ("Europe/Gibraltar", 7200),
    ("Europe/Guernsey", 3600),
    ("Europe/Helsinki", 10800),
    ("Europe/Isle_of_Man", 3600),
    ("Europe/Istanbul", 10800),
    ("Europe/Jersey", 3600),
    ("Europe/Kaliningrad", 7200),
    ("Europe/Kiev", 10800),
    ("Europe/Kirov", 10800),
    ("Europe/Lisbon", 3600),
    ("Europe/Ljubljana", 7200),
    ("Europe/London", 3600),
    ("Europe/Luxembourg", 7200),
    ("Europe/Madrid", 7200),
    ("Europe/Malta", 7200),
    ("Europe/Mariehamn", 10800),
    ("Europe/Minsk", 10800),
    ("Europe/Monaco", 7200),
    ("Europe/Moscow", 10800),
    ("Europe/Oslo", 7200),
    ("Europe/Paris", 7200),
    ("Europe/Podgorica", 7200),
    ("Europe/Prague", 7200),
    ("Europe/Riga", 10800),
    ("Europe/Rome", 7200),
    ("Europe/Samara", 14400),
    ("Europe/San_Marino", 7200),
    ("Europe/Sarajevo", 7200),
    ("Europe/Saratov", 14400),
    ("Europe/Simferopol", 10800),
    ("Europe/Skopje", 7200),
    ("Europe/Sofia", 10800),
    ("Europe/Stockholm", 7200),
    ("Europe/Tallinn", 10800),
    ("Europe/Tirane", 7200),
    ("Europe/Ulyanovsk", 14400),
    ("Europe/Uzhgorod", 10800),
    ("Europe/Vaduz", 7200),
    ("Europe/Vatican", 7200),
    ("Europe/Vienna", 7200),
    ("Europe/Vilnius", 10800),
    ("Europe/Volgograd", 14400),
    ("Europe/Warsaw", 7200),
    ("Europe/Zagreb", 7200),
    ("Europe/Zaporozhye", 10800),
    ("Europe/Zurich", 7200),
    ("Indian/Antananarivo", 10800),
    ("Indian/Chagos", 21600),
    ("Indian/Christmas", 25200),
    ("Indian/Cocos", 23400),
    ("Indian/Comoro", 10800),
    ("Indian/Kerguelen", 18000),
    ("Indian/Mahe", 14400),
    ("Indian/Maldives", 18000),
    ("Indian/Mauritius", 14400),
    ("Indian/Mayotte", 10800),
    ("Indian/Reunion", 14400),
    ("Pacific/Apia", 50400),
    ("Pacific/Auckland", 46800),
    ("Pacific/Bougainville", 39600),
    ("Pacific/Chatham", 49500),
    ("Pacific/Chuuk", 36000),
    ("Pacific/Easter", -18000),
    ("Pacific/Efate", 39600),
    ("Pacific/Enderbury", 46800),
    ("Pacific/Fakaofo", 46800),
    ("Pacific/Fiji", 43200),
    ("Pacific/Funafuti", 43200),
    ("Pacific/Galapagos", -21600),
    ("Pacific/Gambier", -32400),
    ("Pacific/Guadalcanal", 39600),
    ("Pacific/Guam", 36000),
    ("Pacific/Honolulu", -36000),
    ("Pacific/Kiritimati", 50400),
    ("Pacific/Kosrae", 39600),
    ("Pacific/Kwajalein", 43200),
    ("Pacific/Majuro", 43200),
    ("Pacific/Marquesas", -34200),
    ("Pacific/Midway", -39600),
    ("Pacific/Nauru", 43200),
    ("Pacific/Niue", -39600),
    ("Pacific/Norfolk", 39600),
    ("Pacific/Noumea", 39600),
    ("Pacific/Pago_Pago", -39600),
    ("Pacific/Palau", 32400),
    ("Pacific/Pitcairn", -28800),
    ("Pacific/Pohnpei", 39600),
    ("Pacific/Port_Moresby", 36000),
    ("Pacific/Rarotonga", -36000),
    ("Pacific/Saipan", 36000),
    ("Pacific/Tahiti", -36000),
    ("Pacific/Tarawa", 43200),
    ("Pacific/Tongatapu", 46800),
    ("Pacific/Wake", 43200),
    ("Pacific/Wallis", 43200),
    ("UTC", 0)]

/-- Lookup in a static table (`Map.get` on the generated maps). -/
def tableGet : List (String × Int) → String → Option Int
  | [], _ => none
  | (k, v) :: rest, key => if k = key then some v else tableGet rest key

/-- Models the JavaScript expression `x || 0` applied to the result of
`Map.get`: `undefined` (absent key) and the falsy number `0` both give
`0`; any other number is returned unchanged. -/
def jsOrZero : Option Int → Int
  | none => 0
  | some v => if v = 0 then 0 else v

/-- The cache read at the start of `getOffset`:
`this.m_cache.has(z) ? this.m_cache.get(z) : new Offset()`. -/
def cachedOrNew (cache : List (String × Offset)) (zone : String) : Offset :=
  match mapGet cache zone with
  | some o => o
  | none => Offset.new

/-- Observable outcome of one `getOffset` call: the returned number
(`none` models `NaN`), the cache afterwards, whether the external process
was invoked, and whether `m_log.error` / `m_log.debug` were called. -/
structure GetOffsetResult where
  value : Option Int
  cache : List (String × Offset)
  execCalled : Bool
  errorLogged : Bool
  debugLogged : Bool
deriving DecidableEq

/-- `UFTimezone.getOffset`, translated line by line.  `time` is the value
of `UFSystem.time()` at the call; `ext` is the outcome of the external
interpreter invocation (only consulted when the cached entry is stale).
On a rejected promise the `catch` block logs an error; on diagnostic
output (`stderr` non-empty, i.e. truthy) an error is logged; both paths
fall through to the static summer table with `|| 0`.  Otherwise the
parsed stdout is stored into the entry together with the current time,
the entry is written back with `Map.set`, a debug line is logged and the
parsed value is returned. -/
def getOffset (cache : List (String × Offset)) (zone : String) (time : Int)
    (ext : ExecResult) : GetOffsetResult :=
  let offset := cachedOrNew cache zone
  if offset.time + CACHE_LIFE > time then
    { value := offset.offset, cache := cache,
      execCalled := false, errorLogged := false, debugLogged := false }
  else
    match ext with
    | ExecResult.failure =>
      { value := some (jsOrZero (tableGet s_summerTimezones zone)), cache := cache,
        execCalled := true, errorLogged := true, debugLogged := false }
    | ExecResult.success stdout stderr =>
      if stderr ≠ "" then
        { value := some (jsOrZero (tableGet s_summerTimezones zone)), cache := cache,
          execCalled := true, errorLogged := true, debugLogged := false }
      else
        { value := jsParseInt stdout,
          cache := mapSet cache zone { offset := jsParseInt stdout, time := time },
          execCalled := true, errorLogged := false, debugLogged := true }

/-- Decides whether the pattern list is an initial segment of the text
list (character-exact). -/
def listIsPre : List Char → List Char → Bool
  | [], _ => true
  | _ :: _, [] => false
  | a :: as, b :: bs => a = b && listIsPre as bs

/-- Decides whether the pattern list occurs somewhere in the text list;
`jsIncludes s t` below models `s.indexOf(t) >= 0`. -/
def listHasSub (t : List Char) : List Char → Bool
  | [] => t.isEmpty
  | c :: cs => listIsPre t (c :: cs) || listHasSub t cs

/-- Models `s.indexOf(t) >= 0` on JavaScript strings. -/
def jsIncludes (s t : String) : Bool :=
  listHasSub t.data s.data

/-- `UFTimezone.is24`: true unless the zone name contains `America` or
`London` (case sensitive substring test via `indexOf`). -/
def is24 (aPhpTimezone : String) : Bool :=
  !(jsIncludes aPhpTimezone "America") && !(jsIncludes aPhpTimezone "London")

/-- `UFTimezone.getLocalFromServerDate`, translated over integer epoch
milliseconds.  `tzOffsetMin` models `Date.prototype.getTimezoneOffset`
(minutes, a function of the date value); the `Date` arithmetic
`serverDate.getTime() + 60000 * serverDate.getTimezoneOffset() + 1000 * offset`
is performed on the integer time value.  When `getOffset` produced `NaN`
(`none`) the resulting date is invalid, modelled by `none`. -/
def getLocalFromServerDate (cache : List (String × Offset)) (serverTime : Int)
    (tzOffsetMin : Int → Int) (zone : String) (time : Int) (ext : ExecResult) :
    Option Int × List (String × Offset) :=
  let r := getOffset cache zone time ext
  (r.value.map (fun o => serverTime + 60000 * tzOffsetMin serverTime + 1000 * o), r.cache)

/-- `UFTimezone.getServerFromLocalDate`:
`aLocalDate.getTime() - 1000 * offset - 60000 * aLocalDate.getTimezoneOffset()`. -/
def getServerFromLocalDate (cache : List (String × Offset)) (localTime : Int)
    (tzOffsetMin : Int → Int) (zone : String) (time : Int) (ext : ExecResult) :
    Option Int × List (String × Offset) :=
  let r := getOffset cache zone time ext
  (r.value.map (fun o => localTime - 1000 * o - 60000 * tzOffsetMin localTime), r.cache)

/-- `UFText.twoDigits` (external collaborator from ts-general-lib): a
value below 10 is prefixed with `0`, so minutes and seconds are always
rendered with two digits. -/
def twoDigits (n : Nat) : String :=
  if n < 10 then "0" ++ toString n else toString n

/-- The formatting core of `UFTimezone.getLocalTime`, over the hour,
minute and second components of the converted local date (the component
extraction `getHours`/`getMinutes`/`getSeconds` is platform behaviour of
`Date` and is not part of this repository):
`hours = use24 ? h : (h % 12) || 12` (the falsy value `0` becomes `12`),
two-digit minutes, optional two-digit seconds and a lower-case
` am`/` pm` tail chosen by `localDate.getHours() < 12`. -/
def getLocalTime (h m s : Nat) (use24 : Bool) (includeSeconds : Bool) : String :=
  let hours : Nat := if use24 then h else (if h % 12 = 0 then 12 else h % 12)
  let minutes : String := ":" ++ twoDigits m
  let seconds : String := if includeSeconds then ":" ++ twoDigits s else ""
  let amPm : String := if use24 then "" else (if h < 12 then " am" else " pm")
  toString hours ++ minutes ++ seconds ++ amPm

/-- Twelve-hour rendering as described by the specification (hour 0
displays as 12, hours above 12 drop 12; minutes and seconds two-digit
zero-padded; lower-case suffix with a leading space, `am` for hours
0–11 and `pm` for hours 12–23).  Stated from the specification's words,
to be compared with the source-derived `getLocalTime`. -/
def specTwelveHour (h m s : Nat) (includeSeconds : Bool) : String :=
  let displayHour : Nat := if h = 0 then 12 else (if h ≤ 12 then h else h - 12)
  let minutesText : String := ":" ++ twoDigits m
  let secondsText : String := if includeSeconds then ":" ++ twoDigits s else ""
  let period : String := if h ≤ 11 then " am" else " pm"
  toString displayHour ++ minutesText ++ secondsText ++ period


/-- Line terminator as seen by the regex metacharacter `.` (which matches
any character except line terminators).  (JavaScript additionally treats
U+2028/U+2029 as terminators; they cannot occur in the inputs of this
development.) -/
def isLineTerm (c : Char) : Bool :=
  c = '\n' || c = '\r'

/-- Characters matchable by `.` from the current position: the rest of
the current line. -/
def takeLine (l : List Char) : List Char :=
  l.takeWhile (fun c => !(isLineTerm c))

/-- Drop the rest of the current line (up to the next line terminator). -/
def dropLine (l : List Char) : List Char :=
  l.dropWhile (fun c => !(isLineTerm c))

/-- Scanning inside a block comment: the lazy regex tail
`(.|[\r\n])*?\*+\/` ends the match at the first `*/`; returns the text
after it, or `none` when the comment never closes (no match then). -/
def dropBlockEnd : List Char → Option (List Char)
  | '*' :: '/' :: rest => some rest
  | _ :: rest => dropBlockEnd rest
  | [] => none

/-- One fuel-indexed pass of
`config.replace(/\/\*(.|[\r\n])*?\*+\//gi, '')` (strip block comments).
Each step consumes at least one character, so fuel equal to the input
length never runs out; the fuel only makes the recursion structural. -/
def stripBlockCommentsGo : Nat → List Char → List Char
  | 0, l => l
  | fuel + 1, l =>
    match l with
    | '/' :: '*' :: rest =>
      (match dropBlockEnd rest with
       | some rest2 => stripBlockCommentsGo fuel rest2
       | none => '/' :: '*' :: rest)
    | c :: rest => c :: stripBlockCommentsGo fuel rest
    | [] => []

/-- Strip block comments (pipeline step 1). -/
def stripBlockComments (l : List Char) : List Char :=
  stripBlockCommentsGo l.length l

/-- Fuel-indexed pass of `config.replace(/\/\/.+/gi, '')` (strip line
comments).  The `.+` requires at least one non-terminator character after
`//`; otherwise the regex does not match there and scanning moves on. -/
def stripLineCommentsGo : Nat → List Char → List Char
  | 0, l => l
  | fuel + 1, l =>
    match l with
    | '/' :: '/' :: c :: rest =>
      if isLineTerm c then '/' :: '/' :: stripLineCommentsGo fuel (c :: rest)
      else stripLineCommentsGo fuel (dropLine rest)
    | c :: rest => c :: stripLineCommentsGo fuel rest
    | [] => []

/-- Strip line comments (pipeline step 2). -/
def stripLineComments (l : List Char) : List Char :=
  stripLineCommentsGo l.length l

/-- Index of the last occurrence of `target` in the list, if any. -/
def lastIdxOf (target : Char) : List Char → Option Nat
  | [] => none
  | c :: rest =>
    match lastIdxOf target rest with
    | some i => some (i + 1)
    | none => if c = target then some 0 else none

/-- Case-insensitive test for the three characters `use` at the start of
the list (the regex `/use.*;/gi` carries the `i` flag). -/
def matchesUse : List Char → Bool
  | a :: b :: c :: _ => a.toLower = 'u' && b.toLower = 's' && c.toLower = 'e'
  | _ => false

/-- Fuel-indexed pass of `config.replace(/use.*;/gi, '')`: at a
case-insensitive `use`, the greedy `.*;` extends to the last `;` on the
same line; without such a `;` the regex does not match there. -/
def stripUseGo : Nat → List Char → List Char
  | 0, l => l
  | _ + 1, [] => []
  | fuel + 1, c :: rest =>
    if matchesUse (c :: rest) then
      let rest2 := rest.drop 2
      match lastIdxOf ';' (takeLine rest2) with
      | some i => stripUseGo fuel (rest2.drop (i + 1))
      | none => c :: stripUseGo fuel rest
    else c :: stripUseGo fuel rest

/-- Strip `use ... ;` snippets (pipeline step 3). -/
def stripUse (l : List Char) : List Char :=
  stripUseGo l.length l

/-- A first-occurrence plain-string replacement by the empty string:
`config.replace('<?php', '')`, `.replace('return ', '')`,
`.replace(';', '')` (pipeline step 4). -/
def removeFirst (pat : List Char) : List Char → List Char
  | [] => []
  | c :: rest =>
    if listIsPre pat (c :: rest) then (c :: rest).drop pat.length
    else c :: removeFirst pat rest

/-- The callback's `x.replace(/'/g, '\\\'')`: prepend a backslash to
every single quote of the value. -/
def escapeSingleQuotes : List Char → List Char
  | [] => []
  | c :: rest =>
    if c = '\'' then '\\' :: '\'' :: escapeSingleQuotes rest
    else c :: escapeSingleQuotes rest

/-- One backtracking attempt for `=>\s+[^0-9"'].*,` with the `\s+` group
bound to exactly `k` characters (all whitespace by construction):
the next character must not be a digit or a quote, and the greedy `.*,`
needs a `,` on the same line (the last one wins).  Returns `(k, i)` with
`i` the index of that comma after the class character. -/
def tryQuoteK (rest : List Char) (k : Nat) : Option (Nat × Nat) :=
  match rest.drop k with
  | [] => none
  | c :: tail2 =>
    if c.isDigit || c = '"' || c = '\'' then none
    else
      match lastIdxOf ',' (takeLine tail2) with
      | some i => some (k, i)
      | none => none

/-- Greedy backtracking of `\s+`: try the longest whitespace run first,
then shorter ones, down to one character. -/
def tryQuoteKs (rest : List Char) : Nat → Option (Nat × Nat)
  | 0 => none
  | k + 1 =>
    match tryQuoteK rest (k + 1) with
    | some r => some r
    | none => tryQuoteKs rest k

/-- Fuel-indexed pass of
`config.replace(/=>\s+([^0-9"'].*),/gi, x => ...)` (pipeline step 5).
On a match `x`, the callback strips the leading `=>\s+` (greedy, so all
leading whitespace) and the final comma, leaves the literals
`true`/`false`/`null` alone, wraps any other value in single quotes with
embedded single quotes escaped, and emits `'=> ' + x + ','`. -/
def quoteValuesGo : Nat → List Char → List Char
  | 0, l => l
  | _ + 1, [] => []
  | fuel + 1, '=' :: '>' :: rest =>
    (match tryQuoteKs rest ((rest.takeWhile isJsWs).length) with
     | some (k, i) =>
       let len := k + 1 + (i + 1)
       let value := ((rest.take len).dropWhile isJsWs).dropLast
       let quoted :=
         if value = "true".data ∨ value = "false".data ∨ value = "null".data
         then value
         else '\'' :: (escapeSingleQuotes value ++ ['\''])
       '=' :: '>' :: ' ' :: (quoted ++ ',' :: quoteValuesGo fuel (rest.drop len))
     | none => '=' :: quoteValuesGo fuel ('>' :: rest))
  | fuel + 1, c :: rest => c :: quoteValuesGo fuel rest

/-- Quote bare values (pipeline step 5). -/
def quoteValues (l : List Char) : List Char :=
  quoteValuesGo l.length l

/-- A global single-character replacement: `.replace(/\[/gi, '{')`,
`.replace(/]/gi, '}')` and `.replace(/'/gi, '"')`. -/
def replaceChar (a b : Char) (l : List Char) : List Char :=
  l.map (fun c => if c = a then b else c)

/-- Global replacement of `=>` by `:` (`.replace(/=>/gi, ':')`). -/
def replaceArrow : List Char → List Char
  | '=' :: '>' :: rest => ':' :: replaceArrow rest
  | c :: rest => c :: replaceArrow rest
  | [] => []

/-- Fuel-indexed pass of `config.replace(/,(\s|[\r\n])*?}/gi, '}')`
(pipeline step 7): a comma whose first following non-whitespace character
is `}` is removed together with the whitespace. -/
def removeTrailingCommasGo : Nat → List Char → List Char
  | 0, l => l
  | _ + 1, [] => []
  | fuel + 1, ',' :: rest =>
    (let wsLen := (rest.takeWhile isJsWs).length
     match rest.drop wsLen with
     | '}' :: rest2 => '}' :: removeTrailingCommasGo fuel rest2
     | _ => ',' :: removeTrailingCommasGo fuel rest)
  | fuel + 1, c :: rest => c :: removeTrailingCommasGo fuel rest

/-- Remove trailing commas before a closing brace (pipeline step 7). -/
def removeTrailingCommas (l : List Char) : List Char :=
  removeTrailingCommasGo l.length l

/-- The full transformation pipeline of `UFPhp.parsePhpConfig`, in source
order, from the file content to the text handed to `JSON.parse`. -/
def phpConfigPipeline (content : String) : String :=
  let l0 := content.data
  let l1 := stripBlockComments l0
  let l2 := stripLineComments l1
  let l3 := stripUse l2
  let l4 := removeFirst "<?php".data l3
  let l5 := removeFirst "return ".data l4
  let l6 := removeFirst ";".data l5
  let l7 := quoteValues l6
  let l8 := replaceChar '[' '{' l7
  let l9 := replaceChar ']' '}' l8
  let l10 := replaceArrow l9
  let l11 := removeTrailingCommas l10
  let l12 := replaceChar '\'' '"' l11
  String.mk l12

/-- The structured value produced by `JSON.parse`.  Object members keep
their textual order.  Number values are modelled as integers; fractional
and exponent numerals (which `JSON.parse` would read as floating-point
values, not representable in this embedding) are mapped to parse errors
and are exercised by no claim. -/
inductive Json where
  | null
  | bool (b : Bool)
  | num (n : Int)
  | str (s : String)
  | arr (elements : List Json)
  | obj (members : List (String × Json))

/-- JSON insignificant whitespace. -/
def isJsonWs (c : Char) : Bool :=
  c = ' ' || c = '\t' || c = '\n' || c = '\r'

/-- Value of one hexadecimal digit. -/
def hexVal (c : Char) : Option Nat :=
  if '0' ≤ c ∧ c ≤ '9' then some (c.toNat - 48)
  else if 'a' ≤ c ∧ c ≤ 'f' then some (c.toNat - 87)
  else if 'A' ≤ c ∧ c ≤ 'F' then some (c.toNat - 55)
  else none

/-- The single-character JSON string escapes. -/
def escChar : Char → Option Char
  | '"' => some '"'
  | '\\' => some '\\'
  | '/' => some '/'
  | 'b' => some '\x08'
  | 'f' => some '\x0c'
  | 'n' => some '\n'
  | 'r' => some '\r'
  | 't' => some '\t'
  | _ => none

/-- Body of a JSON string after the opening quote: returns its characters
and the text after the closing quote. -/
def parseStringRest : List Char → Except String (List Char × List Char)
  | [] => Except.error "unterminated string"
  | '"' :: rest => Except.ok ([], rest)
  | '\\' :: 'u' :: h1 :: h2 :: h3 :: h4 :: rest =>
    (match hexVal h1, hexVal h2, hexVal h3, hexVal h4 with
     | some x1, some x2, some x3, some x4 =>
       let n := ((x1 * 16 + x2) * 16 + x3) * 16 + x4
       (parseStringRest rest).map (fun p => (Char.ofNat n :: p.1, p.2))
     | _, _, _, _ => Except.error "bad unicode escape")
  | '\\' :: e :: rest =>
    (match escChar e with
     | some c => (parseStringRest rest).map (fun p => (c :: p.1, p.2))
     | none => Except.error "bad escape")
  | c :: rest =>
    if c.toNat < 32 then Except.error "control character in string"
    else (parseStringRest rest).map (fun p => (c :: p.1, p.2))

/-- A JSON integer numeral: optional minus sign, digits, no redundant
leading zero; fractional or exponent continuations are rejected (see
`Json`). -/
def parseJsonNumber (l : List Char) : Except String (Json × List Char) :=
  let signAndRest : Bool × List Char :=
    match l with
    | '-' :: rest => (true, rest)
    | _ => (false, l)
  let ds := signAndRest.2.takeWhile Char.isDigit
  let rest := signAndRest.2.drop ds.length
  if ds.isEmpty then Except.error "invalid number"
  else if 1 < ds.length ∧ ds.headD '0' = '0' then Except.error "leading zero"
  else
    match rest with
    | '.' :: _ => Except.error "fractional numerals not modelled"
    | 'e' :: _ => Except.error "exponent numerals not modelled"
    | 'E' :: _ => Except.error "exponent numerals not modelled"
    | _ =>
      let n : Int := digitsToNat ds
      Except.ok (Json.num (if signAndRest.1 then -n else n), rest)

mutual

/-- One JSON value, by recursive descent.  The fuel decreases on every
nested call and every call consumes at least one input character first,
so fuel exceeding the input length never runs out. -/
def parseJsonValue : Nat → List Char → Except String (Json × List Char)
  | 0, _ => Except.error "out of fuel"
  | fuel + 1, l =>
    match l.dropWhile isJsonWs with
    | [] => Except.error "unexpected end of input"
    | 't' :: rest =>
      if listIsPre "rue".data rest then Except.ok (Json.bool true, rest.drop 3)
      else Except.error "unexpected token"
    | 'f' :: rest =>
      if listIsPre "alse".data rest then Except.ok (Json.bool false, rest.drop 4)
      else Except.error "unexpected token"
    | 'n' :: rest =>
      if listIsPre "ull".data rest then Except.ok (Json.null, rest.drop 3)
      else Except.error "unexpected token"
    | '"' :: rest =>
      (parseStringRest rest).map (fun p => (Json.str (String.mk p.1), p.2))
    | '[' :: rest =>
      (match rest.dropWhile isJsonWs with
       | ']' :: rest2 => Except.ok (Json.arr [], rest2)
       | _ => (parseJsonElems fuel rest).map (fun p => (Json.arr p.1, p.2)))
    | '{' :: rest =>
      (match rest.dropWhile isJsonWs with
       | '}' :: rest2 => Except.ok (Json.obj [], rest2)
       | _ => (parseJsonMembers fuel rest).map (fun p => (Json.obj p.1, p.2)))
    | l2 => parseJsonNumber l2

/-- A non-empty comma-separated element list followed by `]`. -/
def parseJsonElems : Nat → List Char → Except String (List Json × List Char)
  | 0, _ => Except.error "out of fuel"
  | fuel + 1, l =>
    match parseJsonValue fuel l with
    | Except.error e => Except.error e
    | Except.ok (j, rest) =>
      match rest.dropWhile isJsonWs with
      | ',' :: rest2 => (parseJsonElems fuel rest2).map (fun p => (j :: p.1, p.2))
      | ']' :: rest2 => Except.ok ([j], rest2)
      | _ => Except.error "expected comma or closing bracket"

/-- A non-empty comma-separated member list followed by `}`. -/
def parseJsonMembers : Nat → List Char →
    Except String (List (String × Json) × List Char)
  | 0, _ => Except.error "out of fuel"
  | fuel + 1, l =>
    match l.dropWhile isJsonWs with
    | '"' :: rest =>
      (match parseStringRest rest with
       | Except.error e => Except.error e
       | Except.ok (key, rest2) =>
         match rest2.dropWhile isJsonWs with
         | ':' :: rest3 =>
           (match parseJsonValue fuel rest3 with
            | Except.error e => Except.error e
            | Except.ok (j, rest4) =>
              match rest4.dropWhile isJsonWs with
              | ',' :: rest5 =>
                (parseJsonMembers fuel rest5).map
                  (fun p => ((String.mk key, j) :: p.1, p.2))
              | '}' :: rest5 => Except.ok ([(String.mk key, j)], rest5)
              | _ => Except.error "expected comma or closing brace")
         | _ => Except.error "expected colon")
    | _ => Except.error "expected string key"

end

/-- `JSON.parse`: one value, then only whitespace may remain. -/
def jsonParse (s : String) : Except String Json :=
  match parseJsonValue (s.length + 1) s.data with
  | Except.ok (j, rest) =>
    if (rest.dropWhile isJsonWs).isEmpty then Except.ok j
    else Except.error "unexpected trailing characters"
  | Except.error e => Except.error e

/-- The value `parsePhpConfig` resolves with: either the parsed structure
or the boolean `false` failure sentinel. -/
inductive PhpConfigResult where
  | parsed (value : Json)
  | failed

/-- Observable outcome of one `parsePhpConfig` call: the returned value
and whether `console.error` was called. -/
structure PhpParseOutcome where
  result : PhpConfigResult
  consoleErrorLogged : Bool

/-- The `try` body of `UFPhp.parsePhpConfig` with exceptions as `Except`
errors.  The filesystem collaborator maps a path to `none` when the file
does not exist (both `access` and `readFile` reject) and otherwise to its
readability flag (`access(aFilename, constants.R_OK)` rejects when it is
false) and content. -/
def parsePhpConfigCore (fs : String → Option (Bool × String)) (path : String) :
    Except String Json :=
  match fs path with
  | none => Except.error "ENOENT: no such file or directory"
  | some (readable, content) =>
    if readable then jsonParse (phpConfigPipeline content)
    else Except.error "EACCES: permission denied"

/-- `UFPhp.parsePhpConfig`: the `catch` block logs every error with
`console.error` and resolves with the boolean `false` sentinel. -/
def parsePhpConfig (fs : String → Option (Bool × String)) (path : String) :
    PhpParseOutcome :=
  match parsePhpConfigCore fs path with
  | Except.ok j => { result := PhpConfigResult.parsed j, consoleErrorLogged := false }
  | Except.error _ => { result := PhpConfigResult.failed, consoleErrorLogged := true }


/-- Helper: a fresh cache entry short-circuits `getOffset` — the cached
offset is returned and nothing else happens. -/
theorem getOffset_fresh (cache : List (String × Offset)) (zone : String)
    (time : Int) (ext : ExecResult) (entry : Offset)
    (hget : mapGet cache zone = some entry)
    (hfresh : entry.time + CACHE_LIFE > time) :
    getOffset cache zone time ext =
      { value := entry.offset, cache := cache,
        execCalled := false, errorLogged := false, debugLogged := false } := by
  have hc : cachedOrNew cache zone = entry := by simp [cachedOrNew, hget]
  simp [getOffset, hc, hfresh]

/-- Helper: `mapSet` keeps the key list unchanged for a present key and
appends the key otherwise. -/
theorem mapKeys_mapSet (c : List (String × Offset)) (z : String) (v : Offset) :
    mapKeys (mapSet c z v) =
      if (mapGet c z).isSome then mapKeys c else mapKeys c ++ [z] := by
  induction c with
  | nil => simp [mapSet, mapGet, mapKeys]
  | cons hd tl ih =>
    obtain ⟨k, w⟩ := hd
    by_cases hk : k = z
    · subst hk; simp [mapSet, mapGet, mapKeys]
    · simp only [mapSet, mapGet, mapKeys, hk, if_neg, if_false, List.map_cons]
      simp only [mapKeys] at ih
      rw [ih]
      split <;> simp

/-- Claim C1 (amended form): when the cached entry is stale and the
external computation fails (rejected promise, or diagnostic output on
stderr), `getOffset` returns the value mapped to the zone in the static
summer-offset table, or `0` if the zone is absent; in particular
`Europe/London` yields `3600`, its summer-table value. -/
theorem c1_external_failure_uses_summer_table
    (cache : List (String × Offset)) (zone : String) (time : Int) (ext : ExecResult)
    (hstale : ¬ (cachedOrNew cache zone).time + CACHE_LIFE > time)
    (hfail : ext = ExecResult.failure ∨
      ∃ out err, ext = ExecResult.success out err ∧ err ≠ "") :
    (∀ v, tableGet s_summerTimezones zone = some v →
        (getOffset cache zone time ext).value = some v)
    ∧ (tableGet s_summerTimezones zone = none →
        (getOffset cache zone time ext).value = some 0)
    ∧ (zone = "Europe/London" →
        (getOffset cache zone time ext).value = some 3600) := by
  have hval : (getOffset cache zone time ext).value =
      some (jsOrZero (tableGet s_summerTimezones zone)) := by
    rcases hfail with rfl | ⟨out, err, rfl, herr⟩
    · simp [getOffset, hstale]
    · simp [getOffset, hstale, herr]
  refine ⟨?_, ?_, ?_⟩
  · intro v hv
    rw [hval, hv]
    by_cases hv0 : v = 0 <;> simp [jsOrZero, hv0]
  · intro hnone
    rw [hval, hnone]
    rfl
  · intro hz
    subst hz
    rw [hval]
    decide

/-- Claim C1 witness: concrete failing lookup for `Europe/London`. -/
theorem c1_external_failure_uses_summer_table_witness :
    (getOffset [] "Europe/London" 0 ExecResult.failure).value = some 3600 :=
  (c1_external_failure_uses_summer_table [] "Europe/London" 0 ExecResult.failure
    (by decide) (Or.inl rfl)).2.2 rfl

/-- Claim C1 counterexample: under an external failure,
`getOffset("Europe/London")` returns `3600` — the summer-table value for
that zone — and not `0` as the claim states. -/
theorem c1_counterexample :
    (getOffset [] "Europe/London" 0 ExecResult.failure).value = some 3600
    ∧ ¬ (getOffset [] "Europe/London" 0 ExecResult.failure).value = some 0 := by
  decide

/-- Claim C2 (amended form): when the cached entry is stale and the
external call exits successfully with empty stderr but stdout that does
not parse as an integer, `getOffset` stores `NaN` (modelled `none`) into
the cache together with the current time, logs at debug (not error)
level, and returns `NaN` — it does not fall back to the static table. -/
theorem c2_unparsable_output_caches_nan
    (cache : List (String × Offset)) (zone : String) (time : Int) (stdout : String)
    (hstale : ¬ (cachedOrNew cache zone).time + CACHE_LIFE > time)
    (hnan : jsParseInt stdout = none) :
    (getOffset cache zone time (ExecResult.success stdout "")).value = none
    ∧ (getOffset cache zone time (ExecResult.success stdout "")).cache =
        mapSet cache zone { offset := none, time := time }
    ∧ (getOffset cache zone time (ExecResult.success stdout "")).debugLogged = true
    ∧ (getOffset cache zone time (ExecResult.success stdout "")).errorLogged = false := by
  simp [getOffset, hstale, hnan]

/-- Claim C2 witness: concrete unparsable stdout. -/
theorem c2_unparsable_output_caches_nan_witness :
    (getOffset [] "Europe/Amsterdam" 3600000 (ExecResult.success "oops" "")).value = none :=
  (c2_unparsable_output_caches_nan [] "Europe/Amsterdam" 3600000 "oops"
    (by decide) (by decide)).1

/-- Claim C2 counterexample: with stale cache, successful exit, empty
stderr and unparsable stdout, `getOffset` returns `NaN` (not the
summer-table fallback `7200` for `Europe/Amsterdam`), logs no error, and
caches the non-numeric entry. -/
theorem c2_counterexample :
    (getOffset [] "Europe/Amsterdam" 0 (ExecResult.success "abc" "")).value = none
    ∧ (getOffset [] "Europe/Amsterdam" 0 (ExecResult.success "abc" "")).errorLogged = false
    ∧ mapGet (getOffset [] "Europe/Amsterdam" 0 (ExecResult.success "abc" "")).cache
        "Europe/Amsterdam" = some { offset := none, time := 0 }
    ∧ tableGet s_summerTimezones "Europe/Amsterdam" = some 7200 := by
  decide

/-- Helper: appending a key strictly grows the key list, so an unchanged
key list is never equal to an extended one. -/
theorem keys_ne_append (l : List String) (z : String) : ¬ l = l ++ [z] := by
  intro h
  have hlen := congrArg List.length h
  simp at hlen

/-- Claim C3 (amended form): the cache starts empty at construction, and
every `getOffset` call either leaves the key list unchanged or appends
exactly the queried zone (so entries are never removed and there is at
most one entry per distinct zone name); moreover the key list grows
precisely when the queried zone was previously unseen, its entry was
stale, and the external refresh completed successfully with no
diagnostic output — in every other case, including every failed refresh,
no entry is created. -/
theorem c3_cache_monotone :
    initialCache = []
    ∧ ∀ (cache : List (String × Offset)) (zone : String) (time : Int) (ext : ExecResult),
        (mapKeys (getOffset cache zone time ext).cache = mapKeys cache
          ∨ mapKeys (getOffset cache zone time ext).cache = mapKeys cache ++ [zone])
        ∧ (mapKeys (getOffset cache zone time ext).cache = mapKeys cache ++ [zone]
            ↔ mapHas cache zone = false
              ∧ ¬ (cachedOrNew cache zone).time + CACHE_LIFE > time
              ∧ ∃ stdout, ext = ExecResult.success stdout "") := by
  refine ⟨rfl, ?_⟩
  intro c z t e
  have hne := keys_ne_append (mapKeys c) z
  by_cases hf : (cachedOrNew c z).time + CACHE_LIFE > t
  · have hcache : (getOffset c z t e).cache = c := by simp [getOffset, hf]
    rw [hcache]
    refine ⟨Or.inl rfl, fun h => absurd h hne, ?_⟩
    rintro ⟨-, hstale, -⟩
    exact absurd hf hstale
  · cases e with
    | failure =>
      have hcache : (getOffset c z t ExecResult.failure).cache = c := by
        simp [getOffset, hf]
      rw [hcache]
      refine ⟨Or.inl rfl, fun h => absurd h hne, ?_⟩
      rintro ⟨-, -, out, hout⟩
      exact ExecResult.noConfusion hout
    | success out err =>
      by_cases herr : err = ""
      · subst herr
        have hcache : (getOffset c z t (ExecResult.success out "")).cache =
            mapSet c z { offset := jsParseInt out, time := t } := by
          simp [getOffset, hf]
        rw [hcache, mapKeys_mapSet]
        cases hhas : (mapGet c z).isSome
        · rw [if_neg (by simp)]
          exact ⟨Or.inr rfl,
            fun _ => ⟨by simp [mapHas, hhas], hf, out, rfl⟩, fun _ => rfl⟩
        · rw [if_pos rfl]
          refine ⟨Or.inl rfl, fun h => absurd h hne, ?_⟩
          rintro ⟨hh, -, -⟩
          simp [mapHas, hhas] at hh
      · have hcache : (getOffset c z t (ExecResult.success out err)).cache = c := by
          simp [getOffset, hf, herr]
        rw [hcache]
        refine ⟨Or.inl rfl, fun h => absurd h hne, ?_⟩
        rintro ⟨-, -, out2, hout⟩
        injection hout with hout1 hout2
        exact absurd hout2 herr

/-- Claim C3 counterexample: a first lookup of a previously-unseen zone
whose refresh fails creates no cache entry at all. -/
theorem c3_counterexample :
    mapHas (getOffset [] "Europe/Amsterdam" 0 ExecResult.failure).cache
        "Europe/Amsterdam" = false
    ∧ (getOffset [] "Europe/Amsterdam" 0 ExecResult.failure).cache = [] := by
  decide

/-- Claim C4: a cached entry satisfying `now - capturedAt < CACHE_LIFE`
is served directly — the cached offset is returned, no external process
is invoked and the cache is untouched. -/
theorem c4_fresh_cache_hit
    (cache : List (String × Offset)) (zone : String) (time : Int)
    (ext : ExecResult) (entry : Offset)
    (hget : mapGet cache zone = some entry)
    (hfresh : time - entry.time < CACHE_LIFE) :
    (getOffset cache zone time ext).value = entry.offset
    ∧ (getOffset cache zone time ext).execCalled = false
    ∧ (getOffset cache zone time ext).cache = cache := by
  have h := getOffset_fresh cache zone time ext entry hget (by omega)
  rw [h]
  exact ⟨rfl, rfl, rfl⟩

/-- Claim C4 witness: a second lookup within the hour hits the cache. -/
theorem c4_fresh_cache_hit_witness :
    (getOffset [("UTC", { offset := some 0, time := 5 })] "UTC" 5
        ExecResult.failure).execCalled = false :=
  (c4_fresh_cache_hit [("UTC", { offset := some 0, time := 5 })] "UTC" 5
    ExecResult.failure { offset := some 0, time := 5 } rfl (by decide)).2.1

/-- Claim C5 (amended form): a freshly constructed entry has offset `0`
and `time = -CACHE_LIFE`, a constant independent of the current time;
for every nonnegative current time it already fails the freshness test,
so the first `getOffset` for a previously-unseen zone always attempts an
external refresh. -/
theorem c5_fresh_entry_always_stale :
    Offset.new.offset = some 0
    ∧ Offset.new.time = 0 - CACHE_LIFE
    ∧ (∀ now : Int, 0 ≤ now → ¬ Offset.new.time + CACHE_LIFE > now)
    ∧ (∀ (cache : List (String × Offset)) (zone : String) (now : Int) (ext : ExecResult),
        0 ≤ now → mapGet cache zone = none →
        (getOffset cache zone now ext).execCalled = true) := by
  refine ⟨rfl, by decide, ?_, ?_⟩
  · intro now hnow
    simp only [Offset.new, CACHE_LIFE]
    omega
  · intro c z now e hnow hget
    have hstale : ¬ (cachedOrNew c z).time + CACHE_LIFE > now := by
      simp only [cachedOrNew, hget, Offset.new, CACHE_LIFE]
      omega
    cases e with
    | failure => simp [getOffset, hstale]
    | success out err =>
      by_cases herr : err = "" <;> simp [getOffset, hstale, herr]

/-- Claim C5 witness: a first lookup on an empty cache at time 0 invokes
the external computation. -/
theorem c5_fresh_entry_always_stale_witness :
    (getOffset [] "UTC" 0 ExecResult.failure).execCalled = true :=
  c5_fresh_entry_always_stale.2.2.2 [] "UTC" 0 ExecResult.failure (by decide) rfl

/-- Claim C5 counterexample: the claim reads `capturedAt` as "now minus
the cache lifetime"; at a call observing `now = 7200000` the freshly
constructed entry's `time` is the constant `-CACHE_LIFE`, not
`7200000 - CACHE_LIFE`. -/
theorem c5_counterexample :
    Offset.new.offset = some 0 ∧ ¬ Offset.new.time = 7200000 - CACHE_LIFE := by
  decide

/-- Claim C6: converting a server date to zone-local time and back, with
the same fresh cached offset used by both calls and the server's own UTC
offset equal at the two dates involved, returns the original date. -/
theorem c6_roundtrip
    (cache : List (String × Offset)) (zone : String) (time : Int) (ext : ExecResult)
    (serverTime : Int) (tzOffsetMin : Int → Int) (entry : Offset) (o localTime : Int)
    (hget : mapGet cache zone = some entry)
    (hfresh : entry.time + CACHE_LIFE > time)
    (hoff : entry.offset = some o)
    (hl : (getLocalFromServerDate cache serverTime tzOffsetMin zone time ext).1 =
        some localTime)
    (htz : tzOffsetMin localTime = tzOffsetMin serverTime) :
    (getServerFromLocalDate
        (getLocalFromServerDate cache serverTime tzOffsetMin zone time ext).2
        localTime tzOffsetMin zone time ext).1 = some serverTime := by
  have hro := getOffset_fresh cache zone time ext entry hget hfresh
  have h2 : getLocalFromServerDate cache serverTime tzOffsetMin zone time ext =
      (some (serverTime + 60000 * tzOffsetMin serverTime + 1000 * o), cache) := by
    simp [getLocalFromServerDate, hro, hoff]
  rw [h2] at hl
  have hl2 : serverTime + 60000 * tzOffsetMin serverTime + 1000 * o = localTime :=
    Option.some.inj hl
  rw [h2]
  show (getServerFromLocalDate cache localTime tzOffsetMin zone time ext).1 =
    some serverTime
  simp [getServerFromLocalDate, hro, hoff]
  omega

/-- Claim C6 witness: concrete round trip through zone `UTC` with cached
offset 3600 s and a server zone offset of -60 minutes. -/
theorem c6_roundtrip_witness :
    (getServerFromLocalDate
        (getLocalFromServerDate [("UTC", { offset := some 3600, time := 0 })] 5
          (fun _ => -60) "UTC" 0 ExecResult.failure).2
        5 (fun _ => -60) "UTC" 0 ExecResult.failure).1 = some 5 :=
  c6_roundtrip [("UTC", { offset := some 3600, time := 0 })] "UTC" 0
    ExecResult.failure 5 (fun _ => -60) { offset := some 3600, time := 0 } 3600 5
    rfl (by decide) rfl rfl rfl


/-- Claim C9: for a zone rendered in 12-hour mode (`is24` false), the
formatting core of `getLocalTime` agrees with the specification's
description of 12-hour rendering (hour 0 shown as 12, two-digit
zero-padded minutes and seconds, lower-case ` am` for hours 0–11 and
` pm` for hours 12–23); minutes and seconds always render with exactly
two digits, and the two concrete instances of the specification hold. -/
theorem c9_twelve_hour_format
    (zone : String) (h m s : Nat) (includeSeconds : Bool)
    (h24 : is24 zone = false) (hh : h < 24) (hm : m < 60) (hs : s < 60) :
    getLocalTime h m s (is24 zone) includeSeconds = specTwelveHour h m s includeSeconds
    ∧ (twoDigits m).length = 2
    ∧ (twoDigits s).length = 2
    ∧ getLocalTime 0 5 0 false false = "12:05 am"
    ∧ getLocalTime 13 30 9 false true = "1:30:09 pm" := by
  have hlen : ∀ n, n < 60 → (twoDigits n).length = 2 := by decide
  refine ⟨?_, hlen m hm, hlen s hs, by decide, by decide⟩
  rw [h24]
  have hd : (if h % 12 = 0 then (12 : Nat) else h % 12) =
      (if h = 0 then (12 : Nat) else if h ≤ 12 then h else h - 12) := by
    split_ifs <;> omega
  have hp : (if h < 12 then " am" else " pm") =
      (if h ≤ 11 then " am" else " pm") := by
    split_ifs with h1 h2 h2
    · rfl
    · omega
    · omega
    · rfl
  simp only [getLocalTime, specTwelveHour, Bool.false_eq_true, if_false, hd, hp]

/-- Claim C9 witness: applied to `Europe/London` (a 12-hour zone) at
local time 0:05. -/
theorem c9_twelve_hour_format_witness :
    getLocalTime 0 5 0 (is24 "Europe/London") false = specTwelveHour 0 5 0 false :=
  (c9_twelve_hour_format "Europe/London" 0 5 0 false (by decide) (by decide)
    (by decide) (by decide)).1

/-- Claim C10: when the cached entry is stale and the refresh attempt
fails (rejected promise, or diagnostic output on stderr), `getOffset`
leaves the cache exactly as it was: no entry is added and no entry is
modified. -/
theorem c10_failed_refresh_preserves_cache
    (cache : List (String × Offset)) (zone : String) (time : Int) (ext : ExecResult)
    (hstale : ¬ (cachedOrNew cache zone).time + CACHE_LIFE > time)
    (hfail : ext = ExecResult.failure ∨
      ∃ out err, ext = ExecResult.success out err ∧ err ≠ "") :
    (getOffset cache zone time ext).cache = cache := by
  rcases hfail with rfl | ⟨out, err, rfl, herr⟩
  · simp [getOffset, hstale]
  · simp [getOffset, hstale, herr]

/-- Claim C10 witness: a stale entry for `Europe/Paris` survives a
rejected refresh unchanged. -/
theorem c10_failed_refresh_preserves_cache_witness :
    (getOffset [("Europe/Paris", { offset := some 3600, time := 0 })]
        "Europe/Paris" 7200000 ExecResult.failure).cache =
      [("Europe/Paris", { offset := some 3600, time := 0 })] :=
  c10_failed_refresh_preserves_cache
    [("Europe/Paris", { offset := some 3600, time := 0 })]
    "Europe/Paris" 7200000 ExecResult.failure (by decide) (Or.inl rfl)

/-- The configuration file of specification test 6: a `<?php` tag, a
`return` of an array literal with an integer, a string and a boolean
member, each comma-terminated, closed by `];`. -/
def phpConfigContent : String :=
  "<?php\nreturn [\n  'a' => 1,\n  'b' => 'x',\n  'c' => true,\n];"

/-- A filesystem containing exactly that file, readable. -/
def phpConfigFs : String → Option (Bool × String) :=
  fun path => if path = "config.php" then some (true, phpConfigContent) else none

/-- Claim C7: running the converter on that file yields the structured
equivalent of the JSON document with members a: 1, b: "x", c: true. -/
theorem c7_pipeline_produces_expected_structure :
    (parsePhpConfig phpConfigFs "config.php").result =
      PhpConfigResult.parsed (Json.obj
        [("a", Json.num 1), ("b", Json.str "x"), ("c", Json.bool true)]) := by
  rfl

/-- Claim C8: every error raised inside the body of `parsePhpConfig`
(missing file, unreadable file, failing JSON parse of the rewritten text)
is absorbed: the call logs to the error console and returns the `false`
sentinel; in particular a non-existent path returns the sentinel, and
every call returns either a parsed structure or the sentinel — nothing
propagates. -/
theorem c8_errors_become_sentinel
    (fs : String → Option (Bool × String)) (path : String) :
    (∀ e, parsePhpConfigCore fs path = Except.error e →
        parsePhpConfig fs path =
          { result := PhpConfigResult.failed, consoleErrorLogged := true })
    ∧ (fs path = none → (parsePhpConfig fs path).result = PhpConfigResult.failed)
    ∧ ((∃ j, (parsePhpConfig fs path).result = PhpConfigResult.parsed j)
        ∨ (parsePhpConfig fs path).result = PhpConfigResult.failed) := by
  refine ⟨?_, ?_, ?_⟩
  · intro e he
    simp [parsePhpConfig, he]
  · intro hnone
    simp [parsePhpConfig, parsePhpConfigCore, hnone]
  · cases hc : parsePhpConfigCore fs path with
    | error e => right; simp [parsePhpConfig, hc]
    | ok j => left; exact ⟨j, by simp [parsePhpConfig, hc]⟩

/-- Claim C8 witness: a non-existent file produces the sentinel. -/
theorem c8_errors_become_sentinel_witness :
    (parsePhpConfig (fun _ => none) "missing.php").result = PhpConfigResult.failed :=
  (c8_errors_become_sentinel (fun _ => none) "missing.php").2.1 rfl

end UF
